import Mathlib

/-!
Verification of the options-analytics processing pipeline.

This file gives a shallow embedding, in Lean 4, of the core functions of the
repository (time/expiration utilities, calculation utilities, the options
calculator, the expiration selector, the data processor and the response
formatter), and proves or refutes the frozen specification claims about them.

Modelling conventions:
  * Python floats are modelled as exact rationals (ℚ); `round(x, n)` is
    modelled as round-half-to-even on ℚ (`pyRound`), which agrees with the
    float behaviour at every input exercised here.
  * Python `None` is modelled with `Option`; a function that can raise is
    modelled with `Except String`; a function whose exceptions are swallowed
    internally is total.
  * Python `datetime` values are modelled as rational day counts since the
    proleptic-Gregorian epoch used by Howard Hinnant's civil-date algorithms
    (midnight-aligned dates are integers; the hidden "current clock" that the
    source reads via `get_current_utc_timestamp()` is made an explicit `now`
    parameter).
  * The external Black-Scholes solver `implied_volatility` and the Greek
    function `delta` (library `py_vollib`, out of scope for the repository)
    are parameters of type `Solver` / `DeltaFn`: arbitrary functions that
    either return a value or raise.
-/

/-! ## Python-arithmetic helpers -/

/-- Python `round(x, n)`: round half to even at `n` decimal digits, on ℚ. -/
def pyRound (x : ℚ) (n : ℕ) : ℚ :=
  let p : ℚ := (10 : ℚ) ^ n
  let s : ℚ := x * p
  let f : ℤ := ⌊s⌋
  let frac : ℚ := s - (f : ℚ)
  let r : ℤ :=
    if frac < 1 / 2 then f
    else if 1 / 2 < frac then f + 1
    else if f % 2 = 0 then f else f + 1
  (r : ℚ) / p

/-- Lexicographic comparison of strings by code point, as Python compares. -/
def charListLe : List Char → List Char → Bool
  | [], _ => true
  | _ :: _, [] => false
  | a :: as, b :: bs =>
    if a.val < b.val then true
    else if b.val < a.val then false
    else charListLe as bs

def strLe (a b : String) : Bool := charListLe a.data b.data

/-- Stable insertion into a list sorted by `le` (the new element goes before
the first element it compares `le` to, matching Python's stable sort). -/
def insertSortedBy (le : α → α → Bool) (x : α) : List α → List α
  | [] => [x]
  | y :: ys => if le x y then x :: y :: ys else y :: insertSortedBy le x ys

/-- Stable sort by `le`, as Python `list.sort` (stability is what matters
for the claims; the inputs here are tiny). -/
def sortBy (le : α → α → Bool) : List α → List α
  | [] => []
  | x :: xs => insertSortedBy le x (sortBy le xs)

/-- Python `min(xs, key=k)` on a nonempty list: the first element with the
minimal key. -/
def pyMinByKey (k : α → ℕ) (a : α) (l : List α) : α :=
  l.foldl (fun best x => if k x < k best then x else best) a

/-- Association-list insertion with overwrite, modelling Python dict
assignment `d[k] = v` (insertion order kept, existing key overwritten). -/
def assocInsert : List (String × α) → String → α → List (String × α)
  | [], k, v => [(k, v)]
  | (k0, v0) :: rest, k, v =>
    if k0 = k then (k0, v) :: rest else (k0, v0) :: assocInsert rest k v

/-- Association-list lookup, modelling Python dict membership/access. -/
def assocLookup : List (String × α) → String → Option α
  | [], _ => none
  | (k0, v0) :: rest, k => if k0 = k then some v0 else assocLookup rest k

/-! ## Civil-date arithmetic (datetime at day granularity) -/

/-- Days since 1970-01-01 for a civil date (Howard Hinnant's
`days_from_civil`, specialised to years in 1000..9999 so that all
intermediate quantities stay in ℕ). -/
def daysFromCivil (y m d : ℕ) : ℤ :=
  let y1 : ℕ := if m ≤ 2 then y - 1 else y
  let era : ℕ := y1 / 400
  let yoe : ℕ := y1 % 400
  let mp : ℕ := if 2 < m then m - 3 else m + 9
  let doy : ℕ := (153 * mp + 2) / 5 + d - 1
  let doe : ℕ := yoe * 365 + yoe / 4 - yoe / 100 + doy
  (era * 146097 + doe : ℤ) - 719468

/-- Civil date from days since 1970-01-01 (Hinnant's `civil_from_days`,
for dates at or after year 0). -/
def civilFromDays (z : ℤ) : ℕ × ℕ × ℕ :=
  let n : ℕ := (z + 719468).toNat
  let era : ℕ := n / 146097
  let doe : ℕ := n % 146097
  let yoe : ℕ := (doe - doe / 1460 + doe / 36524 - doe / 146096) / 365
  let y0 : ℕ := yoe + era * 400
  let doy : ℕ := doe - (365 * yoe + yoe / 4 - yoe / 100)
  let mp : ℕ := (5 * doy + 2) / 153
  let d : ℕ := doy - (153 * mp + 2) / 5 + 1
  let m : ℕ := if mp < 10 then mp + 3 else mp - 9
  (if m ≤ 2 then y0 + 1 else y0, m, d)

def digitsToNat (s : String) : ℕ :=
  s.foldl (fun acc c => acc * 10 + (c.toNat - 48)) 0

def pad2 (n : ℕ) : String := if n < 10 then "0" ++ toString n else toString n

def pad4 (n : ℕ) : String :=
  if n < 10 then "000" ++ toString n
  else if n < 100 then "00" ++ toString n
  else if n < 1000 then "0" ++ toString n
  else toString n

/-- Format a day count as "YYYY-MM-DD" (`datetime.strftime("%Y-%m-%d")`). -/
def formatCivil (z : ℤ) : String :=
  let c := civilFromDays z
  pad4 c.1 ++ "-" ++ pad2 c.2.1 ++ "-" ++ pad2 c.2.2

/-! ## time_utils.py -/

/-- Embeds `parse_expiration_date` (and the `strptime(s, "%Y-%m-%d")` calls):
parses "YYYY-MM-DD" to a midnight-UTC day count, raising (`Except.error`) on
a malformed string exactly where `strptime` raises `ValueError`. -/
def parse_expiration_date (s : String) : Except String ℤ :=
  match s.splitOn "-" with
  | [ys, ms, ds] =>
    if ys.length = 4 ∧ ys.all Char.isDigit
        ∧ 1 ≤ ms.length ∧ ms.length ≤ 2 ∧ ms.all Char.isDigit
        ∧ 1 ≤ ds.length ∧ ds.length ≤ 2 ∧ ds.all Char.isDigit then
      let y := digitsToNat ys
      let m := digitsToNat ms
      let d := digitsToNat ds
      if 1 ≤ m ∧ m ≤ 12 ∧ 1 ≤ d ∧ d ≤ 31 then
        .ok (daysFromCivil y m d)
      else .error ("time data does not match format: " ++ s)
    else .error ("time data does not match format: " ++ s)
  | _ => .error ("time data does not match format: " ++ s)

/-- Embeds `calculate_time_to_expiration`: `(expiration − now)` in years with
365.25-day years, floored at one day; the hidden current clock is the
explicit `now` (in days). Parse failure propagates as in the source. -/
def calculate_time_to_expiration (expiration_date : String) (now : ℚ) :
    Except String ℚ :=
  match parse_expiration_date expiration_date with
  | .error e => .error e
  | .ok expDays => .ok (max (((expDays : ℚ) - now) / 365.25) (1 / 365.25))

/-- Embeds `calculate_days_to_expiration` for a midnight-aligned expiration
day count: whole-day difference from the day-truncated current clock,
clamped at 0. -/
def calculate_days_to_expiration (expDays : ℤ) (now : ℚ) : ℤ :=
  max (expDays - ⌊now⌋) 0

/-- Embeds `get_target_expiration_periods` (dict in insertion order). -/
def get_target_expiration_periods : List (String × ℕ) :=
  [("2w", 14), ("1m", 30), ("6w", 42), ("2m", 60)]

/-- Embeds `calculate_target_dates`: base date plus each target period. -/
def calculate_target_dates (base : ℚ) : List (String × ℚ) :=
  get_target_expiration_periods.map (fun p => (p.1, base + (p.2 : ℚ)))

/-- Left-to-right parse of every expiration string, first failure raising,
as the list comprehension in `find_closest_expiration_dates` does. -/
def parseAllExpirations : List String → Except String (List ℤ)
  | [] => .ok []
  | s :: rest =>
    match parse_expiration_date s with
    | .error e => .error e
    | .ok d =>
      match parseAllExpirations rest with
      | .error e => .error e
      | .ok ds => .ok (d :: ds)

/-- Embeds `find_closest_expiration_dates`: for each target period pick the
expiration minimising `abs((exp − target).days)` (first minimum wins, as
Python `min`), format it back and pair it with its days-to-expiration. The
source's `base_date` parameter and its hidden current clock (used by
`calculate_days_to_expiration`) are the explicit `base` and `now`. An empty
expiration list yields an empty result (the per-label `continue`). -/
def find_closest_expiration_dates (all_expirations : List String)
    (base : ℚ) (now : ℚ) : Except String (List (String × String × ℤ)) :=
  match parseAllExpirations all_expirations with
  | .error e => .error e
  | .ok exp_dates =>
    .ok ((calculate_target_dates base).foldl (fun acc lt =>
      match exp_dates with
      | [] => acc
      | e :: es =>
        let closest : ℤ :=
          pyMinByKey (fun x => (⌊(x : ℚ) - lt.2⌋).natAbs) e es
        acc ++ [(lt.1, (formatCivil closest,
                        calculate_days_to_expiration closest now))]) [])

/-! ## calculation_utils.py -/

/-- Embeds `calculate_percentage_change`. -/
def calculate_percentage_change (current_value previous_value : ℚ) : ℚ :=
  if previous_value = 0 then 0
  else pyRound ((current_value - previous_value) / previous_value * 100) 2

/-- Embeds `calculate_mid_price` (`None` on either side yields 0.0, then the
zero/one/two positive-side cases). -/
def calculate_mid_price (bid ask : Option ℚ) : ℚ :=
  match bid, ask with
  | none, _ => 0
  | _, none => 0
  | some b, some a =>
    if b ≤ 0 ∧ a ≤ 0 then 0
    else if b ≤ 0 then a
    else if a ≤ 0 then b
    else (b + a) / 2

/-- Embeds `calculate_moneyness`: strike / price rounded to 3 decimals. -/
def calculate_moneyness (strike_price current_price : ℚ) : ℚ :=
  if current_price = 0 then 0
  else pyRound (strike_price / current_price) 3

/-- Embeds `is_within_moneyness_range`. -/
def is_within_moneyness_range (moneyness : ℚ)
    (min_moneyness : ℚ := 0.85) (max_moneyness : ℚ := 1.15) : Bool :=
  decide (min_moneyness ≤ moneyness ∧ moneyness ≤ max_moneyness)

/-- Embeds `safe_float_conversion` on an optional rational. -/
def safe_float_conversion : Option ℚ → ℚ
  | none => 0
  | some v => v

/-- Signature of the external `py_vollib` implied-volatility solver:
price, S, K, t, r, flag; it returns a value or raises. -/
def Solver : Type := ℚ → ℚ → ℚ → ℚ → ℚ → String → Except String ℚ

/-- Signature of the external `py_vollib` delta function:
flag, S, K, t, r, sigma; it returns a value or raises. -/
def DeltaFn : Type := String → ℚ → ℚ → ℚ → ℚ → ℚ → Except String ℚ

/-- Result record of `calculate_implied_volatilities`. -/
structure IVResults where
  yf : ℚ
  bid : Option ℚ
  mid : Option ℚ
  ask : Option ℚ
  deriving DecidableEq, Repr

/-- Embeds `calculate_implied_volatilities`: the per-price-point IV triplet.
The option dict's fields arrive as optional values (`.get(key, 0)` and
`safe_float_conversion` applied as in the source); each solver leg is
independently guarded, keeps its result only when `0 < iv < 5.0`, and rounds
it to 4 decimals; a solver exception leaves that leg `None`. -/
def calculate_implied_volatilities (solver : Solver)
    (strikeField bidField askField ivField : Option ℚ)
    (current_price time_to_expiration risk_free_rate : ℚ)
    (option_type : String) : IVResults :=
  let bid := safe_float_conversion bidField
  let ask := safe_float_conversion askField
  let mid_price := calculate_mid_price (some bid) (some ask)
  let iv_yf := safe_float_conversion ivField
  let strike := safe_float_conversion strikeField
  if strike ≤ 0 ∨ current_price ≤ 0 ∨ time_to_expiration ≤ 0 then
    ⟨iv_yf, none, none, none⟩
  else
    let leg : ℚ → Option ℚ := fun price =>
      match solver price current_price strike time_to_expiration
          risk_free_rate option_type with
      | .ok iv => if 0 < iv ∧ iv < 5 then some (pyRound iv 4) else none
      | .error _ => none
    ⟨iv_yf,
     if 0 < bid then leg bid else none,
     if 0 < mid_price then leg mid_price else none,
     if 0 < ask then leg ask else none⟩

/-! ## models/option_data.py -/

/-- Embeds the `OptionData` dataclass. -/
structure OptionData where
  strike : ℚ
  last_price : Option ℚ
  implied_volatility : Option ℚ
  delta : Option ℚ
  option_type : String
  contract_symbol : Option String := none
  last_trade_date : Option String := none
  bid : Option ℚ := none
  ask : Option ℚ := none
  mid_price : Option ℚ := none
  volume : Option ℤ := none
  open_interest : Option ℤ := none
  moneyness : Option ℚ := none
  implied_volatility_bid : Option ℚ := none
  implied_volatility_mid : Option ℚ := none
  implied_volatility_ask : Option ℚ := none
  deriving DecidableEq, Repr

/-- Embeds the `ExpirationData` dataclass. -/
structure ExpirationData where
  expiration : String
  calls : List OptionData
  puts : List OptionData
  days_to_expiration : Option ℤ := none
  expiration_label : Option String := none
  deriving DecidableEq, Repr

/-- Embeds the `StockData` dataclass (timestamp as rational days). -/
structure StockData where
  price : ℚ
  previous_close : ℚ
  percent_change : ℚ
  timestamp : ℚ
  deriving DecidableEq, Repr

/-- Embeds the `VixData` dataclass (timestamp as rational days). -/
structure VixData where
  value : ℚ
  previous_close : ℚ
  percent_change : ℚ
  timestamp : ℚ
  deriving DecidableEq, Repr

/-- Embeds the `MarketData` dataclass. -/
structure MarketData where
  ticker : String
  stock : StockData
  vix : VixData
  expiration_dates : List ExpirationData
  deriving DecidableEq, Repr

/-! ## services/options_calculator.py -/

/-- Embeds `OptionsCalculator.calculate_implied_volatility`: input
validation, delegation to the external solver, rejection of results outside
`(0, 5.0]`; any solver exception yields `None`. -/
def calculate_implied_volatility (solver : Solver) (risk_free_rate : ℚ)
    (option_price underlying_price strike_price time_to_expiration : ℚ)
    (option_type : String) : Option ℚ :=
  if option_price ≤ 0 ∨ underlying_price ≤ 0 ∨ strike_price ≤ 0 then none
  else if time_to_expiration ≤ 0 then none
  else if option_type ≠ "c" ∧ option_type ≠ "p" then none
  else
    match solver option_price underlying_price strike_price
        time_to_expiration risk_free_rate option_type with
    | .ok iv => if iv ≤ 0 ∨ 5 < iv then none else some iv
    | .error _ => none

/-- Embeds `OptionsCalculator.calculate_delta`: input validation (the IV
must lie in `(0, 5.0]`), delegation to the external Greek function; any
exception yields `None`. -/
def calculate_delta (deltaFn : DeltaFn) (risk_free_rate : ℚ)
    (underlying_price strike_price time_to_expiration implied_vol : ℚ)
    (option_type : String) : Option ℚ :=
  if underlying_price ≤ 0 ∨ strike_price ≤ 0 then none
  else if time_to_expiration ≤ 0 then none
  else if implied_vol ≤ 0 ∨ 5 < implied_vol then none
  else if option_type ≠ "c" ∧ option_type ≠ "p" then none
  else
    match deltaFn option_type underlying_price strike_price
        time_to_expiration risk_free_rate implied_vol with
    | .ok d => some d
    | .error _ => none

/-- Embeds `OptionsCalculator.process_options_with_iv`: compute the time to
expiration (returning `[]` when it fails or is nonpositive), then for every
option keep it only when its own stored `implied_volatility` is present and
in `(0, 5.0]`; an option that fails that check is skipped silently
(`continue`), with no attempt to derive an IV from its last price.
For survivors, delta, mid price and the bid/mid/ask IV triplet are computed
best-effort, and an enriched copy is emitted. The function is total: no
failure is ever raised to the caller. -/
def process_options_with_iv (solver : Solver) (deltaFn : DeltaFn)
    (risk_free_rate : ℚ) (options : List OptionData)
    (underlying_price : ℚ) (expiration_date : String) (now : ℚ) :
    List OptionData :=
  match calculate_time_to_expiration expiration_date now with
  | .error _ => []
  | .ok time_to_exp =>
    if time_to_exp ≤ 0 then []
    else
      options.filterMap (fun option =>
        match option.implied_volatility with
        | none => none
        | some iv =>
          if iv ≤ 0 ∨ 5 < iv then none
          else
            let delta_value := calculate_delta deltaFn risk_free_rate
              underlying_price option.strike time_to_exp iv option.option_type
            let mid_price : Option ℚ :=
              match option.bid, option.ask with
              | some b, some a =>
                if 0 < b ∧ 0 < a then
                  some (calculate_mid_price (some b) (some a))
                else none
              | _, _ => none
            let iv_results := calculate_implied_volatilities solver
              (some option.strike) option.bid option.ask (some iv)
              underlying_price time_to_exp risk_free_rate option.option_type
            some { option with
              implied_volatility := some iv
              delta := delta_value
              mid_price := mid_price
              implied_volatility_bid := iv_results.bid
              implied_volatility_mid := iv_results.mid
              implied_volatility_ask := iv_results.ask })

/-! ## utils/data_formatter.py -/

/-- Embeds `validate_ticker_symbol`: `None` or the empty string raise; the
ticker is trimmed and upper-cased; after removing every '.' and '-', what
remains must be non-empty and alphanumeric (`str.isalnum`), else it raises
with the original ticker in the message. -/
def validate_ticker_symbol (ticker : Option String) : Except String String :=
  match ticker with
  | none => .error "Ticker must be a non-empty string"
  | some t =>
    if t = "" then .error "Ticker must be a non-empty string"
    else
      let cleaned := t.trim.toUpper
      let stripped := (cleaned.replace "." "").replace "-" ""
      if stripped ≠ "" ∧ stripped.all Char.isAlphanum then .ok cleaned
      else .error ("Invalid ticker symbol: " ++ t)

/-- Embeds `filter_valid_options`: keep an option iff its strike is
positive, its last price is present and positive, and not both its IV and
its delta are missing. -/
def filter_valid_options (options : List OptionData) : List OptionData :=
  options.filter (fun option =>
    (decide (0 < option.strike))
    && (match option.last_price with
        | some v => decide (0 < v)
        | none => false)
    && (match option.implied_volatility, option.delta with
        | none, none => false
        | _, _ => true))

/-- Response shape of `format_option_for_response`: the first four fields
are always present (possibly null); every other field is emitted only when
the stored value is available (`none` here modelling an absent key). -/
structure FormattedOption where
  strike : ℚ
  lastPrice : Option ℚ
  impliedVolatilityYF : Option ℚ
  delta : Option ℚ
  contractSymbol : Option String
  lastTradeDate : Option String
  bid : Option ℚ
  ask : Option ℚ
  midPrice : Option ℚ
  volume : Option ℤ
  openInterest : Option ℤ
  moneyness : Option ℚ
  impliedVolatilityBid : Option ℚ
  impliedVolatilityMid : Option ℚ
  impliedVolatilityAsk : Option ℚ
  deriving DecidableEq, Repr

/-- Embeds `format_option_for_response`. The always-present fields
`lastPrice`, `impliedVolatilityYF` and `delta` are guarded by Python
truthiness (`if option.x`), so a stored 0.0 serialises as null exactly like
a missing value; `contractSymbol`/`lastTradeDate` are also truthiness-gated
(empty string omitted); the remaining optional fields are gated by
`is not None`. -/
def format_option_for_response (option : OptionData) : FormattedOption where
  strike := pyRound option.strike 2
  lastPrice :=
    match option.last_price with
    | none => none
    | some v => if v = 0 then none else some (pyRound v 2)
  impliedVolatilityYF :=
    match option.implied_volatility with
    | none => none
    | some v => if v = 0 then none else some (pyRound v 4)
  delta :=
    match option.delta with
    | none => none
    | some v => if v = 0 then none else some (pyRound v 4)
  contractSymbol :=
    match option.contract_symbol with
    | none => none
    | some s => if s = "" then none else some s
  lastTradeDate :=
    match option.last_trade_date with
    | none => none
    | some s => if s = "" then none else some s
  bid := option.bid.map (fun v => pyRound v 2)
  ask := option.ask.map (fun v => pyRound v 2)
  midPrice := option.mid_price.map (fun v => pyRound v 2)
  volume := option.volume
  openInterest := option.open_interest
  moneyness := option.moneyness.map (fun v => pyRound v 3)
  impliedVolatilityBid := option.implied_volatility_bid.map (fun v => pyRound v 4)
  impliedVolatilityMid := option.implied_volatility_mid.map (fun v => pyRound v 4)
  impliedVolatilityAsk := option.implied_volatility_ask.map (fun v => pyRound v 4)

/-! ## utils/expiration_selector.py -/

/-- Embeds `select_target_expiration_dates`: raises on an empty expiration
list, else delegates to `find_closest_expiration_dates` (whose `base_date`
defaults to the current clock when `None` is passed). -/
def select_target_expiration_dates (all_expirations : List String)
    (base_date : Option ℚ) (now : ℚ) :
    Except String (List (String × String × ℤ)) :=
  if all_expirations.isEmpty then .error "No expiration dates provided"
  else find_closest_expiration_dates all_expirations (base_date.getD now) now

/-- Embeds `filter_expirations_by_target_periods`: raises on an empty input
list; selects the target expirations (base date defaulting to the clock),
builds the date-to-(label, days) mapping with dict-overwrite semantics,
keeps exactly the groups whose date is in the mapping (stamping label and
days), and sorts the survivors by days to expiration (stable). -/
def filter_expirations_by_target_periods
    (expiration_data_list : List ExpirationData) (now : ℚ) :
    Except String (List ExpirationData) :=
  if expiration_data_list.isEmpty then .error "No expiration data provided"
  else
    match select_target_expiration_dates
        (expiration_data_list.map (fun e => e.expiration)) none now with
    | .error e => .error e
    | .ok target_expirations =>
      let expiration_mapping :=
        target_expirations.foldl
          (fun acc x => assocInsert acc x.2.1 (x.1, x.2.2)) []
      let filtered := expiration_data_list.filterMap (fun exp_data =>
        match assocLookup expiration_mapping exp_data.expiration with
        | some lv =>
          some { exp_data with
            expiration_label := some lv.1
            days_to_expiration := some lv.2 }
        | none => none)
      .ok (sortBy
        (fun a b =>
          decide (a.days_to_expiration.getD 0 ≤ b.days_to_expiration.getD 0))
        filtered)

/-! ## services/data_processor.py -/

/-- Raw provider row for one option, as the loosely-typed dict the data
processor receives: a `none` field models a missing key (`dict.get`
defaults apply as in the source). -/
structure RawOption where
  strike : Option ℚ := none
  last_price : Option ℚ := none
  implied_volatility : Option ℚ := none
  option_type : Option String := none
  contract_symbol : Option String := none
  last_trade_date : Option String := none
  bid : Option ℚ := none
  ask : Option ℚ := none
  volume : Option ℤ := none
  open_interest : Option ℤ := none
  deriving DecidableEq, Repr

/-- Embeds the body of `DataProcessor._convert_raw_options_to_objects` for
one row: missing strike and IV default to 0, missing option type to call;
the nullable fields stay nullable; derived fields start unset. -/
def convertRawOption (raw : RawOption) : OptionData where
  strike := raw.strike.getD 0
  last_price := raw.last_price
  implied_volatility := some (raw.implied_volatility.getD 0)
  delta := none
  option_type := raw.option_type.getD "c"
  contract_symbol := raw.contract_symbol
  last_trade_date := raw.last_trade_date
  bid := raw.bid
  ask := raw.ask
  mid_price := none
  volume := raw.volume
  open_interest := raw.open_interest
  moneyness := none
  implied_volatility_bid := none
  implied_volatility_mid := none
  implied_volatility_ask := none

/-- Embeds `DataProcessor._convert_raw_options_to_objects`. -/
def convert_raw_options_to_objects (raw_options : List RawOption) :
    List OptionData :=
  raw_options.map convertRawOption

/-- Embeds `DataProcessor.structure_options_by_expiration`: per expiration
key (dict iteration in insertion order) split rows into calls and puts,
convert them, run `process_options_with_iv` on each side, apply
`filter_valid_options`, tag survivors with moneyness and keep those inside
`[min_moneyness, max_moneyness]`, and assemble an `ExpirationData` — which
is appended even when both sides end up empty. The result is sorted
ascending by expiration date string. -/
def structure_options_by_expiration (solver : Solver) (deltaFn : DeltaFn)
    (risk_free_rate : ℚ) (raw_options_data : List (String × List RawOption))
    (underlying_price : ℚ) (now : ℚ)
    (min_moneyness : ℚ := 0.85) (max_moneyness : ℚ := 1.15) :
    List ExpirationData :=
  let groups := raw_options_data.map (fun entry =>
    let calls_raw := entry.2.filter (fun o => o.option_type = some "c")
    let puts_raw := entry.2.filter (fun o => o.option_type = some "p")
    let calls := convert_raw_options_to_objects calls_raw
    let puts := convert_raw_options_to_objects puts_raw
    let processed_calls := process_options_with_iv solver deltaFn
      risk_free_rate calls underlying_price entry.1 now
    let processed_puts := process_options_with_iv solver deltaFn
      risk_free_rate puts underlying_price entry.1 now
    let valid_calls := filter_valid_options processed_calls
    let valid_puts := filter_valid_options processed_puts
    let filtered_calls := valid_calls.filterMap (fun c =>
      let m := calculate_moneyness c.strike underlying_price
      if is_within_moneyness_range m min_moneyness max_moneyness then
        some { c with moneyness := some m }
      else none)
    let filtered_puts := valid_puts.filterMap (fun p =>
      let m := calculate_moneyness p.strike underlying_price
      if is_within_moneyness_range m min_moneyness max_moneyness then
        some { p with moneyness := some m }
      else none)
    ExpirationData.mk entry.1 filtered_calls filtered_puts none none)
  sortBy (fun a b => strLe a.expiration b.expiration) groups

/-- Embeds `DataProcessor.create_market_data_response`: validate the ticker
(raising on failure), structure the options by expiration, and — when
`filter_expirations` — try the target-period filtering, catching any
exception and falling back to the unfiltered list. The stock and VIX quotes
are built with `previous_close` equal to the current value and
`percent_change` 0.0 (the source's placeholders), timestamps defaulting to
the current clock. -/
def create_market_data_response (solver : Solver) (deltaFn : DeltaFn)
    (risk_free_rate : ℚ) (ticker : Option String)
    (stock_price vix_value : ℚ)
    (raw_options_data : List (String × List RawOption))
    (data_timestamp vix_timestamp : Option ℚ) (now : ℚ)
    (filter_expirations : Bool) : Except String MarketData :=
  match validate_ticker_symbol ticker with
  | .error e => .error e
  | .ok validated_ticker =>
    let dts := data_timestamp.getD now
    let vts := vix_timestamp.getD now
    let expiration_dates := structure_options_by_expiration solver deltaFn
      risk_free_rate raw_options_data stock_price now
    let expiration_dates_final :=
      if filter_expirations then
        match filter_expirations_by_target_periods expiration_dates now with
        | .ok filtered => filtered
        | .error _ => expiration_dates
      else expiration_dates
    .ok (MarketData.mk validated_ticker
      (StockData.mk stock_price stock_price 0 dts)
      (VixData.mk vix_value vix_value 0 vts)
      expiration_dates_final)

/-- Embeds `DataProcessor.filter_expiration_dates_by_validity`: keep the
expirations whose total option count reaches the minimum (default 1). -/
def filter_expiration_dates_by_validity
    (expiration_dates : List ExpirationData)
    (min_options_per_expiration : ℕ := 1) : List ExpirationData :=
  expiration_dates.filter (fun expiration =>
    min_options_per_expiration ≤ expiration.calls.length + expiration.puts.length)

/-! ## Shared concrete scenario material -/

/-- Solver that never converges (raises on every input). -/
def solverFail : Solver := fun _ _ _ _ _ _ => .error "solver did not converge"

/-- Greek function that raises on every input. -/
def deltaFail : DeltaFn := fun _ _ _ _ _ _ => .error "delta failed"

/-- Solver that converges to 0.2 (20% vol) on every input. -/
def solverGood : Solver := fun _ _ _ _ _ _ => .ok 0.2

/-- Solver that converges to exactly 5.0 (500% vol) on every input. -/
def solverFive : Solver := fun _ _ _ _ _ _ => .ok 5

/-- The day count of 2025-07-18 (midnight UTC), used as the frozen clock. -/
def d0 : ℚ := ((daysFromCivil 2025 7 18 : ℤ) : ℚ)

/-- Raw provider row for a call at strike `k`, otherwise valid (positive
last price, stored IV 0.2). -/
def rawCall (k : ℚ) : RawOption :=
  { strike := some k, last_price := some 2, implied_volatility := some 0.2,
    option_type := some "c" }

/-- Nine otherwise-valid calls whose strikes span moneyness 0.80..1.20
around an underlying of 100; exactly five lie in [85, 115]. -/
def chain9 : List RawOption :=
  [rawCall 80, rawCall 82, rawCall 85, rawCall 95, rawCall 100,
   rawCall 105, rawCall 115, rawCall 118, rawCall 120]

/-- The processed form of `rawCall k` after the pipeline has run with the
failing solver/Greek: stored IV kept, delta unset, moneyness stamped. -/
def mkProcessedCall (k : ℚ) : OptionData :=
  { strike := k, last_price := some 2, implied_volatility := some 0.2,
    delta := none, option_type := "c", moneyness := some (pyRound (k / 100) 3) }

/-- A call with a viable last price but no stored implied volatility. -/
def optNoIV : OptionData :=
  { strike := 100, last_price := some 5, implied_volatility := none,
    delta := none, option_type := "c" }

/-- A call with a valid stored implied volatility of 0.2. -/
def optWithIV : OptionData :=
  { strike := 100, last_price := some 5, implied_volatility := some 0.2,
    delta := none, option_type := "c" }

/-- Decides whether an option's own stored IV field is present and inside
`(0, 5.0]` — the gate `process_options_with_iv` applies. -/
def storedIVValid (option : OptionData) : Bool :=
  match option.implied_volatility with
  | some iv => decide (0 < iv ∧ iv ≤ 5)
  | none => false

/-! ## Claims -/

/-- Claim C2 (status: code_bug). The spec's ticker grammar admits
alphanumerics plus '.', '-' and '^' (carets for index symbols such as
`^VIX`), and the repository's own script `scripts/test_spx_ticker.py`
expects `validate_ticker_symbol("^SPX")` to succeed; but the implementation
only strips '.' and '-' before `isalnum()`, so every caret ticker is
rejected with `ValueError`. This theorem evaluates the embedded validator:
"^VIX" raises although the claim requires it accepted, while the remaining
documented accept/reject examples behave as claimed. -/
theorem validate_ticker_rejects_caret_and_behaves_on_examples :
    validate_ticker_symbol (some "^VIX") = .error "Invalid ticker symbol: ^VIX"
    ∧ validate_ticker_symbol (some "SPY") = .ok "SPY"
    ∧ validate_ticker_symbol (some "  spy  ") = .ok "SPY"
    ∧ validate_ticker_symbol (some "BRK.B") = .ok "BRK.B"
    ∧ validate_ticker_symbol (some "BRK-B") = .ok "BRK-B"
    ∧ validate_ticker_symbol (some "") = .error "Ticker must be a non-empty string"
    ∧ validate_ticker_symbol none = .error "Ticker must be a non-empty string"
    ∧ validate_ticker_symbol (some "SPY@") = .error "Invalid ticker symbol: SPY@"
    ∧ validate_ticker_symbol (some "SP Y") = .error "Invalid ticker symbol: SP Y" := by
  refine ⟨?_, ?_, ?_, ?_, ?_, ?_, ?_, ?_, ?_⟩ <;> with_unfolding_all rfl

/-- Claim C3 counterexample: a null bid with a positive ask yields 0, not
the positive side, so the claim's "returns the positive side … including
when the other side is null" is false at `(None, 10)`. -/
theorem mid_price_null_bid_positive_ask_is_zero :
    calculate_mid_price none (some 10) = 0 ∧ ((0 : ℚ) ≠ 10) := by
  exact ⟨rfl, by norm_num⟩

/-- Claim C3 (status: corrected). `calculate_mid_price` returns 0 whenever
either side is null (even if the other is positive); with both sides
present it returns 0 when both are ≤ 0, the positive side when exactly one
is > 0, and the average when both are > 0; the claim's three numeric
examples hold. -/
theorem mid_price_cases :
    ∀ bid ask : Option ℚ,
    (bid = none ∨ ask = none → calculate_mid_price bid ask = 0)
    ∧ (∀ b a : ℚ, bid = some b → ask = some a → b ≤ 0 → a ≤ 0 →
        calculate_mid_price bid ask = 0)
    ∧ (∀ b a : ℚ, bid = some b → ask = some a → b ≤ 0 → 0 < a →
        calculate_mid_price bid ask = a)
    ∧ (∀ b a : ℚ, bid = some b → ask = some a → 0 < b → a ≤ 0 →
        calculate_mid_price bid ask = b)
    ∧ (∀ b a : ℚ, bid = some b → ask = some a → 0 < b → 0 < a →
        calculate_mid_price bid ask = (b + a) / 2)
    ∧ calculate_mid_price (some 5) (some 5) = 5
    ∧ calculate_mid_price (some 0) (some 10) = 10
    ∧ calculate_mid_price none none = 0 := by
  intro bid ask
  refine ⟨?_, ?_, ?_, ?_, ?_, ?_, ?_, ?_⟩
  · rintro (rfl | rfl)
    · cases ask <;> rfl
    · cases bid <;> rfl
  · rintro b a rfl rfl hb ha
    simp only [calculate_mid_price]
    rw [if_pos ⟨hb, ha⟩]
  · rintro b a rfl rfl hb ha
    simp only [calculate_mid_price]
    rw [if_neg (fun h => absurd ha (not_lt.mpr h.2)), if_pos hb]
  · rintro b a rfl rfl hb ha
    simp only [calculate_mid_price]
    rw [if_neg (fun h => absurd hb (not_lt.mpr h.1)),
        if_neg (not_le.mpr hb), if_pos ha]
  · rintro b a rfl rfl hb ha
    simp only [calculate_mid_price]
    rw [if_neg (fun h => absurd hb (not_lt.mpr h.1)),
        if_neg (not_le.mpr hb), if_neg (not_le.mpr ha)]
  · with_unfolding_all rfl
  · with_unfolding_all rfl
  · rfl

/-- Claim C5 (status: confirmed). With an empty expiration list,
`select_target_expiration_dates` (the realization of the nearest-expiration
selection) raises the empty-input error instead of returning a label map,
whatever the base date and clock. -/
theorem select_target_empty_raises :
    ∀ (base_date : Option ℚ) (now : ℚ),
    select_target_expiration_dates [] base_date now
      = .error "No expiration dates provided" := by
  intro base_date now
  rfl

/-- Claim C6 (status: confirmed). `find_closest_expiration_dates` is a pure
function of the expiration list, the base date and the clock (determinism
is definitional in the embedding, where the source's hidden clock is the
explicit `now`), and at now = 2025-07-18 (used both as base date and as the
clock) the documented five-date input resolves the four labels exactly as
claimed. -/
theorem nearest_expirations_deterministic_and_example :
    (∀ (l : List String) (base now : ℚ),
      find_closest_expiration_dates l base now
        = find_closest_expiration_dates l base now)
    ∧ find_closest_expiration_dates
        ["2025-07-25", "2025-08-01", "2025-08-15", "2025-09-05", "2025-09-19"]
        d0 d0
      = .ok [("2w", ("2025-08-01", 14)), ("1m", ("2025-08-15", 28)),
             ("6w", ("2025-09-05", 49)), ("2m", ("2025-09-19", 63))] := by
  exact ⟨fun _ _ _ => rfl, by with_unfolding_all rfl⟩

/-- Claim C10 (status: confirmed). In `format_option_for_response` the
always-present fields `lastPrice`, `impliedVolatilityYF` and `delta` are
serialized as null exactly when the stored value is missing or exactly 0
(Python truthiness), so a computed delta of 0.0 is indistinguishable from a
failed delta; `strike` is always emitted, rounded to 2 decimals. -/
theorem format_option_truthiness_nulls_zero :
    ∀ option : OptionData,
    (format_option_for_response option).strike = pyRound option.strike 2
    ∧ ((format_option_for_response option).lastPrice = none
        ↔ option.last_price = none ∨ option.last_price = some 0)
    ∧ ((format_option_for_response option).impliedVolatilityYF = none
        ↔ option.implied_volatility = none ∨ option.implied_volatility = some 0)
    ∧ ((format_option_for_response option).delta = none
        ↔ option.delta = none ∨ option.delta = some 0)
    ∧ (format_option_for_response { option with delta := some 0 }).delta
        = (format_option_for_response { option with delta := none }).delta := by
  intro o
  refine ⟨rfl, ?_, ?_, ?_, ?_⟩
  · cases h : o.last_price with
    | none => simp [format_option_for_response, h]
    | some v =>
      by_cases hv : v = 0 <;> simp [format_option_for_response, h, hv]
  · cases h : o.implied_volatility with
    | none => simp [format_option_for_response, h]
    | some v =>
      by_cases hv : v = 0 <;> simp [format_option_for_response, h, hv]
  · cases h : o.delta with
    | none => simp [format_option_for_response, h]
    | some v =>
      by_cases hv : v = 0 <;> simp [format_option_for_response, h, hv]
  · simp [format_option_for_response]

/-- Claim C1 counterexample: a contract with no stored IV but a viable last
price (the solver would return 0.2 for it, as the second conjunct shows) is
nevertheless dropped by `process_options_with_iv` — the claimed fallback to
`calculate_implied_volatility` from `lastPrice` does not exist. -/
theorem process_drops_contract_despite_viable_lastprice_iv :
    process_options_with_iv solverGood deltaFail 0.03 [optNoIV] 100
        "2025-08-15" d0 = []
    ∧ calculate_implied_volatility solverGood 0.03 5 100 100 (112 / 1461) "c"
        = some 0.2
    ∧ calculate_time_to_expiration "2025-08-15" d0 = .ok (112 / 1461)
    ∧ optNoIV.last_price = some 5 := by
  refine ⟨?_, ?_, ?_, ?_⟩ <;> with_unfolding_all rfl

/-- Claim C1 (status: corrected). In `process_options_with_iv` a contract
survives exactly when its own stored implied-volatility field is present
and inside `(0, 5.0]`; a contract whose stored IV is absent or out of range
is dropped immediately and silently (the function is total and never
raises), with no attempt to derive an IV from `lastPrice` via
`calculate_implied_volatility`. Stated as: whatever the solver and Greek
function do, the processed list projects (strike, lastPrice, IV)-wise to
the stored-IV-valid sublist of the input. -/
theorem process_keeps_exactly_stored_iv_valid :
    ∀ (solver : Solver) (deltaFn : DeltaFn) (risk_free_rate : ℚ)
      (options : List OptionData) (underlying_price : ℚ)
      (expiration_date : String) (now t : ℚ),
    calculate_time_to_expiration expiration_date now = .ok t → 0 < t →
    (process_options_with_iv solver deltaFn risk_free_rate options
        underlying_price expiration_date now).map
        (fun o => (o.strike, o.last_price, o.implied_volatility))
      = (options.filter storedIVValid).map
        (fun o => (o.strike, o.last_price, o.implied_volatility)) := by
  intro solver deltaFn r options S exp now t ht htpos
  unfold process_options_with_iv
  rw [ht]
  show (if t ≤ 0 then [] else _).map _ = _
  rw [if_neg (not_le.mpr htpos)]
  induction options with
  | nil => rfl
  | cons o rest ih =>
    rw [List.filterMap_cons, List.filter_cons]
    cases hiv : o.implied_volatility with
    | none => simpa [storedIVValid, hiv] using ih
    | some iv =>
      by_cases hbad : iv ≤ 0 ∨ 5 < iv
      · have hsv : storedIVValid o = false := by
          rcases hbad with h | h <;>
            simp [storedIVValid, hiv] <;> intro h2 <;> linarith
        simp only [hiv, hsv]
        simpa [hbad] using ih
      · have hsv : storedIVValid o = true := by
          rcases not_or.mp hbad with ⟨h1, h2⟩
          simp [storedIVValid, hiv]
          exact ⟨lt_of_not_le h1, le_of_not_lt h2⟩
        simp only [hiv, hsv]
        simp only [hbad, if_false, if_neg hbad]
        simp [ih, hiv]

/-- Witness for C1's theorem: a list holding one stored-IV-less and one
stored-IV-valid contract, at the frozen clock, processed with the
converging solver; only the stored-IV-valid contract survives. -/
theorem process_keeps_exactly_stored_iv_valid_witness :
    calculate_time_to_expiration "2025-08-15" d0 = .ok (112 / 1461)
    ∧ (0 : ℚ) < 112 / 1461
    ∧ (process_options_with_iv solverGood deltaFail 0.03 [optNoIV, optWithIV]
        100 "2025-08-15" d0).map
        (fun o => (o.strike, o.last_price, o.implied_volatility))
      = ([optNoIV, optWithIV].filter storedIVValid).map
        (fun o => (o.strike, o.last_price, o.implied_volatility)) :=
  ⟨by with_unfolding_all rfl, by norm_num,
   process_keeps_exactly_stored_iv_valid solverGood deltaFail 0.03
     [optNoIV, optWithIV] 100 "2025-08-15" d0 (112 / 1461)
     (by with_unfolding_all rfl) (by norm_num)⟩

/-- Claim C4 counterexample: a solver result of exactly 5.0 lies inside
`(0, 5.0]` and is accepted by `calculate_implied_volatility`, yet the
bid-leg of `calculate_implied_volatilities` sets it to null — so
solver-derived IVs are not "accepted exactly when in (0, 5.0]" uniformly
across both functions. -/
theorem triplet_rejects_exact_five_that_compute_iv_accepts :
    calculate_implied_volatility solverFive 0.03 1 100 100 1 "c" = some 5
    ∧ (calculate_implied_volatilities solverFive (some 100) (some 1) (some 0)
        (some 0.2) 100 1 0.03 "c").bid = none
    ∧ ((0 : ℚ) < 5 ∧ (5 : ℚ) ≤ 5) := by
  refine ⟨?_, ?_, by norm_num⟩ <;> with_unfolding_all rfl

/-- Claim C4 (status: corrected). On valid inputs,
`calculate_implied_volatility` accepts a solver result exactly when it lies
in the half-open interval `(0, 5.0]` (so exactly 5.0 is accepted), while
each computed leg of the `calculate_implied_volatilities` triplet accepts a
solver result exactly when it lies in the open interval `(0, 5.0)` —
nulling exactly 5.0 — and rounds it to 4 decimals. -/
theorem solver_result_acceptance_intervals :
    ∀ (solver : Solver) (r p S K t iv y : ℚ) (flag : String),
    solver p S K t r flag = .ok iv →
    0 < p → 0 < S → 0 < K → 0 < t → flag = "c" ∨ flag = "p" →
    calculate_implied_volatility solver r p S K t flag
        = (if 0 < iv ∧ iv ≤ 5 then some iv else none)
    ∧ calculate_implied_volatilities solver (some K) (some p) (some 0)
        (some y) S t r flag
        = ⟨y, (if 0 < iv ∧ iv < 5 then some (pyRound iv 4) else none),
             (if 0 < iv ∧ iv < 5 then some (pyRound iv 4) else none), none⟩ := by
  intro solver r p S K t iv y flag hs hp hS hK ht hflag
  have hprices : ¬(p ≤ 0 ∨ S ≤ 0 ∨ K ≤ 0) := by
    rintro (h | h | h) <;> linarith
  have hflag2 : ¬(flag ≠ "c" ∧ flag ≠ "p") := by
    rcases hflag with h | h <;> simp [h]
  constructor
  · unfold calculate_implied_volatility
    rw [if_neg hprices, if_neg (not_le.mpr ht), if_neg hflag2, hs]
    show (if iv ≤ 0 ∨ 5 < iv then none else some iv) = _
    by_cases hgood : 0 < iv ∧ iv ≤ 5
    · rw [if_neg (fun h => by
        rcases h with h | h <;> rcases hgood with ⟨h1, h2⟩ <;> linarith),
        if_pos hgood]
    · rw [if_pos ?_, if_neg hgood]
      by_contra hcon
      rcases not_or.mp hcon with ⟨h1, h2⟩
      exact hgood ⟨lt_of_not_le h1, le_of_not_lt h2⟩
  · unfold calculate_implied_volatilities
    have hmid : calculate_mid_price (some p) (some 0) = p := by
      simp only [calculate_mid_price]
      rw [if_neg (fun h => absurd hp (not_lt.mpr h.1)),
          if_neg (not_le.mpr hp), if_pos (le_refl 0)]
    simp only [safe_float_conversion, hmid]
    rw [if_neg (fun h => by rcases h with h | h | h <;> linarith)]
    rw [if_pos hp, if_neg (lt_irrefl 0), hs]

/-- Witness for C4's theorem: the converging solver at concrete valid
inputs; its result 0.2 lies in both intervals, so both sides keep it. -/
theorem solver_result_acceptance_intervals_witness :
    solverGood 1 100 100 1 0.03 "c" = .ok 0.2
    ∧ (0 : ℚ) < 1
    ∧ (calculate_implied_volatility solverGood 0.03 1 100 100 1 "c"
        = (if 0 < (0.2 : ℚ) ∧ (0.2 : ℚ) ≤ 5 then some 0.2 else none)
      ∧ calculate_implied_volatilities solverGood (some 100) (some 1)
          (some 0) (some 0.7) 100 1 0.03 "c"
        = ⟨0.7, (if 0 < (0.2 : ℚ) ∧ (0.2 : ℚ) < 5 then some (pyRound 0.2 4) else none),
              (if 0 < (0.2 : ℚ) ∧ (0.2 : ℚ) < 5 then some (pyRound 0.2 4) else none),
              none⟩) :=
  ⟨rfl, by norm_num,
   solver_result_acceptance_intervals solverGood 0.03 1 100 100 1 0.2 0.7 "c"
     rfl (by norm_num) (by norm_num) (by norm_num) (by norm_num) (Or.inl rfl)⟩

/-- Claim C7 (status: confirmed). A single-expiration raw chain of nine
otherwise-valid contracts with strikes spanning moneyness 0.80..1.20 around
underlying 100, structured with the default bounds, yields exactly the five
strikes in [85, 115], each stamped with its strike/underlying moneyness
rounded to 3 decimals; and `is_within_moneyness_range` admits exactly the
closed interval `[lo, hi]`. -/
theorem structure_by_expiration_moneyness_example_and_closed_range :
    structure_options_by_expiration solverFail deltaFail 0.03
        [("2025-08-15", chain9)] 100 d0
      = [ExpirationData.mk "2025-08-15"
          [mkProcessedCall 85, mkProcessedCall 95, mkProcessedCall 100,
           mkProcessedCall 105, mkProcessedCall 115] [] none none]
    ∧ (∀ m lo hi : ℚ,
        is_within_moneyness_range m lo hi = true ↔ lo ≤ m ∧ m ≤ hi) := by
  constructor
  · with_unfolding_all rfl
  · intro m lo hi
    simp [is_within_moneyness_range]

/-- Claim C8 (status: confirmed). In `create_market_data_response` with
expiration filtering requested, a failure of the target-expiration
filtering step is caught and the snapshot is built from the unfiltered
structured list — the request is not aborted — and the stock and VIX quotes
carry `previous_close` equal to the current value and `percent_change` 0. -/
theorem snapshot_falls_back_when_filtering_fails :
    ∀ (solver : Solver) (deltaFn : DeltaFn) (r : ℚ) (ticker : Option String)
      (tick : String) (S V : ℚ) (raw : List (String × List RawOption))
      (dts vts : Option ℚ) (now : ℚ) (e : String),
    validate_ticker_symbol ticker = .ok tick →
    filter_expirations_by_target_periods
        (structure_options_by_expiration solver deltaFn r raw S now) now
      = .error e →
    create_market_data_response solver deltaFn r ticker S V raw dts vts now true
      = .ok (MarketData.mk tick
          (StockData.mk S S 0 (dts.getD now))
          (VixData.mk V V 0 (vts.getD now))
          (structure_options_by_expiration solver deltaFn r raw S now)) := by
  intro solver deltaFn r ticker tick S V raw dts vts now e hval hfail
  unfold create_market_data_response
  rw [hval]
  show Except.ok _ = _
  rw [hfail]
  rfl

/-- Witness for C8's theorem: with no raw expirations the filtering step
raises its empty-input error, and the snapshot is built from the (empty)
unfiltered list with placeholder previous-close data. -/
theorem snapshot_falls_back_when_filtering_fails_witness :
    validate_ticker_symbol (some "SPY") = .ok "SPY"
    ∧ filter_expirations_by_target_periods
        (structure_options_by_expiration solverFail deltaFail 0.03 [] 100 d0) d0
      = .error "No expiration data provided"
    ∧ create_market_data_response solverFail deltaFail 0.03 (some "SPY")
        100 20 [] none none d0 true
      = .ok (MarketData.mk "SPY"
          (StockData.mk 100 100 0 ((none : Option ℚ).getD d0))
          (VixData.mk 20 20 0 ((none : Option ℚ).getD d0))
          (structure_options_by_expiration solverFail deltaFail 0.03 [] 100 d0)) :=
  ⟨by with_unfolding_all rfl, by with_unfolding_all rfl,
   snapshot_falls_back_when_filtering_fails solverFail deltaFail 0.03
     (some "SPY") "SPY" 100 20 [] none none d0 "No expiration data provided"
     (by with_unfolding_all rfl) (by with_unfolding_all rfl)⟩

/-- An expiration group with no contracts at all. -/
def emptyGroup : ExpirationData := ⟨"2025-08-15", [], [], none, none⟩

/-- An expiration group holding one valid call. -/
def goodGroup : ExpirationData := ⟨"2025-08-22", [optWithIV], [], none, none⟩

/-- Claim C9 counterexample: `structure_options_by_expiration` — the list
the data processor produces and `create_market_data_response` consumes —
keeps a group whose calls and puts are both empty (the validity filter is a
separate function the pipeline never invokes). -/
theorem structure_by_expiration_keeps_empty_group :
    structure_options_by_expiration solverFail deltaFail 0.03
        [("2025-08-15", [])] 100 d0 = [emptyGroup]
    ∧ emptyGroup.calls = [] ∧ emptyGroup.puts = [] := by
  refine ⟨?_, rfl, rfl⟩
  with_unfolding_all rfl

/-- Claim C9 (status: corrected). It is only
`filter_expiration_dates_by_validity` that destroys contract-less groups:
with any minimum of at least its default 1, no group in its output has both
an empty calls list and an empty puts list. The structuring step itself
(see the counterexample) retains empty groups. -/
theorem validity_filter_output_has_no_empty_group :
    ∀ (expiration_dates : List ExpirationData) (min_options : ℕ),
    1 ≤ min_options →
    ∀ e, e ∈ filter_expiration_dates_by_validity expiration_dates min_options →
    ¬(e.calls = [] ∧ e.puts = []) := by
  intro l m hm e he hempty
  obtain ⟨hc, hp⟩ := hempty
  unfold filter_expiration_dates_by_validity at he
  have hpred := (List.mem_filter.mp he).2
  rw [hc, hp] at hpred
  simp at hpred
  omega

/-- Witness for C9's theorem: filtering a two-group list with the default
minimum keeps only the non-empty group, which indeed is not empty-on-both
sides. -/
theorem validity_filter_output_has_no_empty_group_witness :
    1 ≤ 1
    ∧ goodGroup ∈ filter_expiration_dates_by_validity [emptyGroup, goodGroup] 1
    ∧ ¬(goodGroup.calls = [] ∧ goodGroup.puts = []) := by
  have hmem : goodGroup ∈ filter_expiration_dates_by_validity
      [emptyGroup, goodGroup] 1 := by
    rw [show filter_expiration_dates_by_validity [emptyGroup, goodGroup] 1
        = [goodGroup] from by with_unfolding_all rfl]
    exact List.mem_singleton_self _
  exact ⟨le_refl 1, hmem,
    validity_filter_output_has_no_empty_group [emptyGroup, goodGroup] 1
      (le_refl 1) goodGroup hmem⟩
